import Mathlib

/-!
Shallow embedding of the remote file-tree retrieval and note-rendering
subsystem of `streamlit_app.py` (functions `fetch_dataframe`, `list_folder`,
`build_tree`, `fetch_note_content`), together with proofs of the claims of the spec about it.

Modelling conventions:
* Machine/library effects are made explicit.  An HTTP response is a status
  code plus an optional parsed JSON body (`none` models a body that is not
  valid JSON, on which the Python call `response.json()` raises).
* Python exceptions are modelled by `Except PyErr`; a function whose embedded
  result is `.error e` raises `e` out of the call (an unhandled exception),
  while `.ok v` returns `v`.
* Calls to `st.error` are collected in a `List String` of reported messages,
  returned alongside the result.
* External library functions (`base64.b64decode(..).decode("utf-8")`,
  `pd.read_csv`, `pd.read_json`) and the network are oracle fields of `Env`,
  universally quantified in the theorems.
* `@st.cache_data` is modelled by the explicit memo-table combinator
  `cachedCall`.
-/

/-- Python exception values, tagged by kind, carrying the `str(e)` text. -/
inductive PyErr where
  | jsonDecode (s : String)
  | keyError (s : String)
  | typeError (s : String)
  | valueError (s : String)
  | other (s : String)
deriving Repr, DecidableEq

/-- The text `str(e)` of an exception value. -/
def PyErr.msg : PyErr → String
  | .jsonDecode s => s
  | .keyError s => s
  | .typeError s => s
  | .valueError s => s
  | .other s => s

/-- Parsed JSON values, restricted to the shapes the GitHub contents API can
return (objects, arrays, strings); an object is its ordered field list with
distinct keys, as produced by the Python json parser. -/
inductive Json where
  | str (s : String)
  | arr (elems : List Json)
  | obj (fields : List (String × Json))

/-- Embedding of the Python membership test `key in data`, for each `Json` shape: key lookup
on a dict, element equality against the string on a list (a non-string
element never equals a `str`), substring test on a string. -/
def Json.pyContains : Json → String → Bool
  | .obj fields, k => fields.any (fun p => p.1 == k)
  | .arr xs, k => xs.any (fun el =>
      match el with
      | .str s => s == k
      | _ => false)
  | .str s, k => k == "" || (s.splitOn k).length ≥ 2

/-- Embedding of the Python subscript `data[key]` with a string key: dict lookup (`KeyError`
when absent), `TypeError` on a list or a string. -/
def Json.getItem : Json → String → Except PyErr Json
  | .obj fields, k =>
      match fields.find? (fun p => p.1 == k) with
      | some p => .ok p.2
      | none => .error (.keyError k)
  | .arr _, _ => .error (.typeError "list indices must be integers or slices, not str")
  | .str _, _ => .error (.typeError "string indices must be integers")

/-- An HTTP response: status code and body.  `body = none` models a body that
is not valid JSON. -/
structure HttpResponse where
  status : Nat
  body : Option Json

/-- Embedding of `response.json()`: the parsed body, raising `JSONDecodeError`
when the body is not valid JSON. -/
def HttpResponse.json : HttpResponse → Except PyErr Json
  | r =>
    match r.body with
    | some j => .ok j
    | none => .error (.jsonDecode "Expecting value: line 1 column 1 (char 0)")

/-- A pandas dataframe, as far as this subsystem observes it: the empty
dataframe `pd.DataFrame()` or a parsed table. -/
inductive DataFrame where
  | empty
  | table (rows : List (List String))
deriving Repr, DecidableEq

/-- The static configuration read from `st.secrets`. -/
structure Config where
  username : String
  repo : String
  branch : String
  rootFolder : String
  token : String

/-- The external world: the network (URL to response) and the library
functions used inside `try` blocks.  `b64utf8 s` models
`base64.b64decode(s).decode("utf-8")`; `readCsv` / `readJson` model
`pd.read_csv` / `pd.read_json` on the decoded text.  Each may raise. -/
structure Env where
  net : String → HttpResponse
  b64utf8 : String → Except PyErr String
  readCsv : String → Except PyErr DataFrame
  readJson : String → Except PyErr DataFrame

/-- Upper-case hex digit of a number below 16. -/
def hexDigit (n : Nat) : String :=
  String.singleton (if n < 10 then Char.ofNat (48 + n) else Char.ofNat (55 + n))

/-- Bytes `urllib.parse.quote` leaves unescaped: ASCII letters, digits,
`_`, `.`, `-`, `~`, and the default safe character `/`. -/
def quoteSafe (b : UInt8) : Bool :=
  (65 ≤ b && b ≤ 90) || (97 ≤ b && b ≤ 122) || (48 ≤ b && b ≤ 57) ||
    b == 95 || b == 46 || b == 45 || b == 126 || b == 47

/-- Embedding of `urllib.parse.quote`: percent-encode every unsafe byte of the UTF-8
encoding of the string. -/
def quote (s : String) : String :=
  s.toUTF8.toList.foldl
    (fun acc b =>
      acc ++ (if quoteSafe b then String.singleton (Char.ofNat b.toNat)
              else "%" ++ hexDigit (b.toNat / 16) ++ hexDigit (b.toNat % 16)))
    ""

/-- The contents-API URL built by each fetcher:
`https://api.github.com/repos/{USERNAME}/{REPO}/contents/{quote(path)}?ref={BRANCH}`. -/
def apiUrl (cfg : Config) (path : String) : String :=
  "https://api.github.com/repos/" ++ cfg.username ++ "/" ++ cfg.repo ++
    "/contents/" ++ quote path ++ "?ref=" ++ cfg.branch

/-- Embedding of the Python suffix test `s.endswith(suffix)`: an exact,
case-sensitive suffix match, computed over the character lists. -/
def pyEndsWith (s suffix : String) : Bool :=
  List.isSuffixOf suffix.data s.data

/-- Embedding of `base64.b64decode(x).decode("utf-8")` applied to a JSON field value: only
a string can be decoded (`TypeError` otherwise); on a string the library
oracle decides success or failure. -/
def decodeContentField (b64utf8 : String → Except PyErr String) :
    Json → Except PyErr String
  | .str s => b64utf8 s
  | _ => .error (.typeError "argument should be a bytes-like object or ASCII string")

/-- Embedding of `fetch_dataframe(file_path)` from `streamlit_app.py`: returns the
dataframe result (`.error` = an exception escapes) together with the list of
`st.error` messages reported. -/
def fetch_dataframe (env : Env) (cfg : Config) (file_path : String) :
    Except PyErr DataFrame × List String :=
  let response := env.net (apiUrl cfg file_path)
  if response.status ≠ 200 then
    (.ok .empty, ["Failed to fetch " ++ file_path ++ ": " ++ toString response.status])
  else
    match response.json with
    | .error e =>
        (.ok .empty, ["Failed to parse JSON from " ++ file_path ++ ": " ++ e.msg])
    | .ok data =>
        if ¬ data.pyContains "content" then
          (.ok .empty, ["No content field found in " ++ file_path])
        else
          match data.getItem "content" >>= decodeContentField env.b64utf8 with
          | .error e =>
              (.ok .empty, ["Error decoding " ++ file_path ++ ": " ++ e.msg])
          | .ok decoded =>
              if pyEndsWith file_path ".csv" then
                match env.readCsv decoded with
                | .ok df => (.ok df, [])
                | .error e =>
                    (.ok .empty, ["Error decoding " ++ file_path ++ ": " ++ e.msg])
              else if pyEndsWith file_path ".json" then
                match env.readJson decoded with
                | .ok df => (.ok df, [])
                | .error e =>
                    (.ok .empty, ["Error decoding " ++ file_path ++ ": " ++ e.msg])
              else
                (.ok .empty, ["Unsupported file type: " ++ file_path])

/-- Embedding of `list_folder(path)` from `streamlit_app.py`: on non-200 status reports an
error and returns `[]`; otherwise returns `response.json()`, whose parse
failure propagates as an exception. -/
def list_folder (env : Env) (cfg : Config) (path : String) :
    Except PyErr Json × List String :=
  let response := env.net (apiUrl cfg path)
  if response.status ≠ 200 then
    (.ok (.arr []), ["Failed to fetch " ++ path ++ ": " ++ toString response.status])
  else
    (response.json, [])

/-- Embedding of `fetch_note_content(file_path)` from `streamlit_app.py`: the displayed
text (`.error` = an exception escapes), plus `st.error` messages (it reports
none). -/
def fetch_note_content (env : Env) (cfg : Config) (file_path : String) :
    Except PyErr String × List String :=
  let response := env.net (apiUrl cfg file_path)
  match response.json with
  | .error e => (.error e, [])
  | .ok data =>
      if ¬ data.pyContains "content" then
        (.ok "Could not fetch note content.", [])
      else
        match data.getItem "content" >>= decodeContentField env.b64utf8 with
        | .ok decoded => (.ok decoded, [])
        | .error e => (.ok ("Error decoding file: " ++ e.msg), [])

/-- A node of the remote repository tree served by the contents API: the
listing record fields `name`, `path`, `type`, plus (for directories) the
listing of the path itself.  the recursion of `build_tree` over the network is
embedded as recursion over this finite tree, which is exactly the remote
directory graph the spec assumes (finite, cycle-free). -/
inductive RNode where
  | mk (name : String) (path : String) (ty : String) (children : List RNode)

/-- The `name` field of a listing record. -/
def RNode.name : RNode → String
  | .mk n _ _ _ => n

/-- The `path` field of a listing record. -/
def RNode.path : RNode → String
  | .mk _ p _ _ => p

/-- The `type` field of a listing record (`"dir"` or `"file"`). -/
def RNode.ty : RNode → String
  | .mk _ _ t _ => t

/-- The listing of the path of a directory entry. -/
def RNode.children : RNode → List RNode
  | .mk _ _ _ cs => cs

/-- A node of the tree `build_tree` returns: a folder dict
`{"id": path, "name": name, "children": children}` or a note dict
`{"id": path, "name": name, "path": path}`. -/
inductive TreeNode where
  | folder (id : String) (name : String) (children : List TreeNode)
  | note (id : String) (name : String) (path : String)

/-- The `id` field of a tree node. -/
def TreeNode.id : TreeNode → String
  | .folder i _ _ => i
  | .note i _ _ => i

/-- The `name` field of a tree node. -/
def TreeNode.name : TreeNode → String
  | .folder _ n _ => n
  | .note _ n _ => n

/-- Whether a tree node is a note (file) node. -/
def TreeNode.isNote : TreeNode → Bool
  | .folder _ _ _ => false
  | .note _ _ _ => true

/-- Embedding of `build_tree(path)` from `streamlit_app.py`, applied to the listing of
`path`: iterate over the listing records in order; skip `.obsidian`; for a
`"dir"` record recurse into its listing and emit a folder node; for a
`"file"` record whose name ends in `.md` emit a note node; drop everything
else. -/
def build_tree : List RNode → List TreeNode
  | [] => []
  | .mk name path ty children :: rest =>
    if name == ".obsidian" then
      build_tree rest
    else if ty == "dir" then
      .folder path name (build_tree children) :: build_tree rest
    else if ty == "file" && pyEndsWith name ".md" then
      .note path name path :: build_tree rest
    else
      build_tree rest

/-- The memo table lookup used by the `@st.cache_data` model. -/
def lookupCache {α : Type} (c : List (String × α)) (k : String) : Option α :=
  (c.find? (fun p => p.1 == k)).map (·.2)

/-- Embedding of `@st.cache_data` on a single-string-argument function: on a cache hit
return the stored result without running `f`; on a miss run `f` once and
store it.  The `Nat` is the number of underlying invocations of `f` (hence,
for the fetchers, of network requests) this call performed. -/
def cachedCall {α : Type} (f : String → α) (c : List (String × α)) (k : String) :
    α × List (String × α) × Nat :=
  match lookupCache c k with
  | some v => (v, c, 0)
  | none => (f k, (k, f k) :: c, 1)

/-- Preorder traversal of a built tree: every node, at any nesting depth. -/
def allNodes : List TreeNode → List TreeNode
  | [] => []
  | .folder i n cs :: rest => .folder i n cs :: (allNodes cs ++ allNodes rest)
  | .note i n p :: rest => .note i n p :: allNodes rest

/-- Preorder list of the `id` fields of every node, at any nesting depth. -/
def allIds : List TreeNode → List String
  | [] => []
  | .folder i _ cs :: rest => i :: (allIds cs ++ allIds rest)
  | .note i _ _ :: rest => i :: allIds rest

/-- Preorder list of the `path` fields of every listing record of a remote
tree, at any nesting depth. -/
def allPaths : List RNode → List String
  | [] => []
  | .mk _ p _ cs :: rest => p :: (allPaths cs ++ allPaths rest)

/-- The node the `build_tree` loop emits for a single listing record, or
`none` when the record is skipped. -/
def entryNode : RNode → Option TreeNode
  | .mk name path ty children =>
    if name == ".obsidian" then none
    else if ty == "dir" then some (.folder path name (build_tree children))
    else if ty == "file" && pyEndsWith name ".md" then some (.note path name path)
    else none

/-- Whether an embedded call lets an exception escape instead of returning. -/
def raisesB {α : Type} (r : Except PyErr α × List String) : Bool :=
  match r.1 with
  | .error _ => true
  | .ok _ => false

/-- A concrete configuration, used by witnesses. -/
def cfg0 : Config :=
  { username := "JIVERU", repo := "Revalde_streamlit", branch := "main",
    rootFolder := "notes", token := "token0" }

/-- A concrete environment whose every response is 200 with a body that is
not valid JSON. -/
def envMalformed : Env :=
  { net := fun _ => { status := 200, body := none }
    b64utf8 := fun s => .ok s
    readCsv := fun _ => .ok (.table [["r"]])
    readJson := fun _ => .ok (.table [["r"]]) }

/-- A concrete environment whose every response is 404 with the usual JSON
error body of the GitHub API. -/
def env404 : Env :=
  { net := fun _ => { status := 404, body := some (.obj [("message", .str "Not Found")]) }
    b64utf8 := fun s => .ok s
    readCsv := fun _ => .ok (.table [["r"]])
    readJson := fun _ => .ok (.table [["r"]]) }

/-- A concrete environment whose every response is a 200 file record whose
`content` field decodes to the text `hello`. -/
def envFile : Env :=
  { net := fun _ =>
      { status := 200
        body := some (.obj [("name", .str "a.md"), ("path", .str "notes/a.md"),
                            ("type", .str "file"), ("content", .str "aGVsbG8=")]) }
    b64utf8 := fun s => if s == "aGVsbG8=" then .ok "hello" else .error (.valueError "Invalid base64-encoded string")
    readCsv := fun _ => .ok (.table [["r"]])
    readJson := fun _ => .ok (.table [["r"]]) }

/-- A concrete environment whose every response is a 200 file record whose
`content` field is rejected by the base64 decoder. -/
def envBadB64 : Env :=
  { net := fun _ =>
      { status := 200
        body := some (.obj [("name", .str "x.csv"), ("path", .str "data/x.csv"),
                            ("type", .str "file"), ("content", .str "%%%")]) }
    b64utf8 := fun _ => .error (.valueError "Invalid base64-encoded string")
    readCsv := fun _ => .ok (.table [["r"]])
    readJson := fun _ => .ok (.table [["r"]]) }

/-- Every branch of `fetch_dataframe` returns a dataframe: no exception
escapes. -/
theorem fetch_dataframe_ok (env : Env) (cfg : Config) (p : String) :
    ∃ df msgs, fetch_dataframe env cfg p = (.ok df, msgs) := by
  simp only [fetch_dataframe]
  repeat' split
  all_goals exact ⟨_, _, rfl⟩

/-- Once the body parses, every branch of `fetch_note_content` returns a
string: no exception escapes. -/
theorem fetch_note_content_ok (env : Env) (cfg : Config) (p : String) (j : Json)
    (hbody : (env.net (apiUrl cfg p)).body = some j) :
    ∃ s, fetch_note_content env cfg p = (.ok s, []) := by
  simp only [fetch_note_content, HttpResponse.json, hbody]
  repeat' split
  all_goals exact ⟨_, rfl⟩

/-- Restatement of `fetch_dataframe_ok` through the `raisesB` observer. -/
theorem fetch_dataframe_total (env : Env) (cfg : Config) (p : String) :
    raisesB (fetch_dataframe env cfg p) = false := by
  obtain ⟨df, msgs, h⟩ := fetch_dataframe_ok env cfg p
  rw [raisesB, h]

/-- Restatement of `fetch_note_content_ok` through the `raisesB` observer. -/
theorem fetch_note_content_total (env : Env) (cfg : Config) (p : String) (j : Json)
    (hbody : (env.net (apiUrl cfg p)).body = some j) :
    raisesB (fetch_note_content env cfg p) = false := by
  obtain ⟨s, h⟩ := fetch_note_content_ok env cfg p j hbody
  rw [raisesB, h]

/-- When the fetched content field is present but its base64/UTF-8 decode
fails, `fetch_dataframe` reports the decode error and returns the empty
dataframe. -/
theorem fetch_dataframe_bad_b64 (env : Env) (cfg : Config) (p : String)
    (j : Json) (s : String) (e : PyErr)
    (hstatus : (env.net (apiUrl cfg p)).status = 200)
    (hbody : (env.net (apiUrl cfg p)).body = some j)
    (hin : j.pyContains "content" = true)
    (hget : j.getItem "content" = .ok (.str s))
    (hdec : env.b64utf8 s = .error e) :
    fetch_dataframe env cfg p = (.ok .empty, ["Error decoding " ++ p ++ ": " ++ e.msg]) := by
  simp [fetch_dataframe, HttpResponse.json, hstatus, hbody, hin, hget, hdec,
    decodeContentField, Bind.bind, Except.bind]

/-- On a 200 response whose body is not valid JSON, `list_folder` lets the
JSON-decode exception escape. -/
theorem list_folder_malformed (env : Env) (cfg : Config) (p : String)
    (hstatus : (env.net (apiUrl cfg p)).status = 200)
    (hbody : (env.net (apiUrl cfg p)).body = none) :
    (list_folder env cfg p).1 = .error (.jsonDecode "Expecting value: line 1 column 1 (char 0)") := by
  simp [list_folder, HttpResponse.json, hstatus, hbody]

/-- C1 counterexample: the claim states that fetch, buildTree and renderNote
never let an exception escape for any HTTP response input, including a
malformed JSON body.  At this concrete input (status 200, body not valid
JSON), `fetch_note_content` (renderNote) propagates the JSON-decode
exception out of the call, refuting the claim as stated. -/
theorem claim_C1_counterexample :
    (fetch_note_content envMalformed cfg0 "notes/a.md").1
      = .error (.jsonDecode "Expecting value: line 1 column 1 (char 0)") := rfl

/-- C1 (amended): `fetch_dataframe` never lets an exception escape for any
HTTP response input (transport error, malformed JSON body, missing content
field, failing base64/UTF-8 decode): it always returns a dataframe; given a
response whose content field fails base64 decoding it returns the empty
dataframe, reporting the decode error.  `fetch_note_content` never lets an
exception escape provided the response body parses as JSON; `list_folder`
(the listing fetch that buildTree uses at every level) propagates the
JSON-decode exception on a malformed body, so buildTree and renderNote are
total only for parseable bodies. -/
theorem claim_C1_error_degradation :
    (∀ (env : Env) (cfg : Config) (p : String),
      raisesB (fetch_dataframe env cfg p) = false)
    ∧ (∀ (env : Env) (cfg : Config) (p : String) (j : Json) (s : String) (e : PyErr),
      (env.net (apiUrl cfg p)).status = 200 →
      (env.net (apiUrl cfg p)).body = some j →
      j.pyContains "content" = true →
      j.getItem "content" = .ok (.str s) →
      env.b64utf8 s = .error e →
      fetch_dataframe env cfg p = (.ok .empty, ["Error decoding " ++ p ++ ": " ++ e.msg]))
    ∧ (∀ (env : Env) (cfg : Config) (p : String) (j : Json),
      (env.net (apiUrl cfg p)).body = some j →
      raisesB (fetch_note_content env cfg p) = false)
    ∧ (∀ (env : Env) (cfg : Config) (p : String),
      (env.net (apiUrl cfg p)).status = 200 →
      (env.net (apiUrl cfg p)).body = none →
      (list_folder env cfg p).1 = .error (.jsonDecode "Expecting value: line 1 column 1 (char 0)")) :=
  ⟨fetch_dataframe_total, fetch_dataframe_bad_b64, fetch_note_content_total, list_folder_malformed⟩

/-- C1 witness: the amended theorem applied at concrete environments, each
hypothesis discharged by evaluation. -/
theorem claim_C1_witness :
    raisesB (fetch_dataframe envBadB64 cfg0 "data/x.csv") = false
    ∧ fetch_dataframe envBadB64 cfg0 "data/x.csv"
        = (.ok .empty, ["Error decoding data/x.csv: Invalid base64-encoded string"])
    ∧ raisesB (fetch_note_content envFile cfg0 "notes/a.md") = false
    ∧ (list_folder envMalformed cfg0 "notes").1
        = .error (.jsonDecode "Expecting value: line 1 column 1 (char 0)") :=
  ⟨claim_C1_error_degradation.1 envBadB64 cfg0 "data/x.csv",
   claim_C1_error_degradation.2.1 envBadB64 cfg0 "data/x.csv"
     (.obj [("name", .str "x.csv"), ("path", .str "data/x.csv"),
            ("type", .str "file"), ("content", .str "%%%")])
     "%%%" (.valueError "Invalid base64-encoded string") rfl rfl rfl rfl rfl,
   claim_C1_error_degradation.2.2.1 envFile cfg0 "notes/a.md"
     (.obj [("name", .str "a.md"), ("path", .str "notes/a.md"),
            ("type", .str "file"), ("content", .str "aGVsbG8=")]) rfl,
   claim_C1_error_degradation.2.2.2 envMalformed cfg0 "notes" rfl rfl⟩

/-- No node produced by `build_tree`, at any depth, is named `.obsidian`. -/
theorem build_tree_no_obsidian (l : List RNode) :
    ∀ n ∈ allNodes (build_tree l), n.name ≠ ".obsidian" := by
  induction l using build_tree.induct with
  | case1 => simp [build_tree, allNodes]
  | case2 name path ty children rest hname ih =>
      simpa [build_tree, hname] using ih
  | case3 name path ty children rest hname hty ih1 ih2 =>
      intro n hn
      simp only [build_tree, if_neg hname, if_pos hty, allNodes, List.mem_cons,
        List.mem_append] at hn
      rcases hn with h | h | h
      · subst h
        simp only [TreeNode.name]
        intro h
        exact hname (by simp [h])
      · exact ih1 n h
      · exact ih2 n h
  | case4 name path ty children rest hname hty hfile ih =>
      intro n hn
      simp only [build_tree, if_neg hname, if_neg hty, if_pos hfile, allNodes,
        List.mem_cons] at hn
      rcases hn with h | h
      · subst h
        simp only [TreeNode.name]
        intro h
        exact hname (by simp [h])
      · exact ih n h
  | case5 name path ty children rest hname hty hfile ih =>
      simpa [build_tree, hname, hty, hfile] using ih

/-- C2: no node anywhere in the result of buildTree, at any nesting depth,
has the name `.obsidian`, and any listing entry whose name equals
`.obsidian` exactly (case-sensitive) is skipped, contributing nothing. -/
theorem claim_C2_obsidian_excluded :
    (∀ (l : List RNode) (n : TreeNode), n ∈ allNodes (build_tree l) → n.name ≠ ".obsidian")
    ∧ (∀ (path ty : String) (children rest : List RNode),
        build_tree (.mk ".obsidian" path ty children :: rest) = build_tree rest) :=
  ⟨fun l n hn => build_tree_no_obsidian l n hn,
   fun _ _ _ _ => by simp [build_tree]⟩

/-- C2 witness: the theorem applied to a concrete two-level tree node and to
a concrete `.obsidian` entry. -/
theorem claim_C2_witness :
    TreeNode.name (.folder "notes/a" "a" [.note "notes/a/b.md" "b.md" "notes/a/b.md"]) ≠ ".obsidian"
    ∧ build_tree [RNode.mk ".obsidian" "notes/.obsidian" "dir" []] = build_tree [] :=
  ⟨claim_C2_obsidian_excluded.1
      [.mk "a" "notes/a" "dir" [.mk "b.md" "notes/a/b.md" "file" []]] _
      (by
        have h : (pyEndsWith "b.md" ".md") = true := by decide
        simp [build_tree, allNodes, h]),
   claim_C2_obsidian_excluded.2 "notes/.obsidian" "dir" [] []⟩

/-- Every note node produced by `build_tree`, at any depth, has a name
ending in `.md`. -/
theorem build_tree_notes_md (l : List RNode) :
    ∀ n ∈ allNodes (build_tree l), n.isNote = true → pyEndsWith n.name ".md" = true := by
  induction l using build_tree.induct with
  | case1 => simp [build_tree, allNodes]
  | case2 name path ty children rest hname ih =>
      simpa [build_tree, hname] using ih
  | case3 name path ty children rest hname hty ih1 ih2 =>
      intro n hn
      simp only [build_tree, if_neg hname, if_pos hty, allNodes, List.mem_cons,
        List.mem_append] at hn
      rcases hn with h | h | h
      · subst h; intro hnote; cases hnote
      · exact ih1 n h
      · exact ih2 n h
  | case4 name path ty children rest hname hty hfile ih =>
      intro n hn
      simp only [build_tree, if_neg hname, if_neg hty, if_pos hfile, allNodes,
        List.mem_cons] at hn
      rcases hn with h | h
      · subst h
        intro _
        simp only [TreeNode.name]
        exact (Bool.and_eq_true _ _ |>.mp hfile).2
      · exact ih n h
  | case5 name path ty children rest hname hty hfile ih =>
      simpa [build_tree, hname, hty, hfile] using ih

/-- C3: every file (note) node in the result of buildTree has a name ending
with `.md` (exact case-sensitive suffix match), and a listing entry of type
`file` with any other name is omitted from the result without an error. -/
theorem claim_C3_only_md_notes :
    (∀ (l : List RNode) (n : TreeNode), n ∈ allNodes (build_tree l) →
      n.isNote = true → pyEndsWith n.name ".md" = true)
    ∧ (∀ (name path : String) (children rest : List RNode),
        name ≠ ".obsidian" → pyEndsWith name ".md" = false →
        build_tree (.mk name path "file" children :: rest) = build_tree rest) :=
  ⟨fun l n hn => build_tree_notes_md l n hn,
   fun name path children rest h1 h2 => by simp [build_tree, h1, h2]⟩

/-- C3 witness: the theorem applied to a concrete one-file tree and to a
concrete non-`.md` file entry. -/
theorem claim_C3_witness :
    pyEndsWith (TreeNode.name (.note "notes/c.md" "c.md" "notes/c.md")) ".md" = true
    ∧ build_tree [RNode.mk "img.png" "notes/img.png" "file" []] = build_tree [] :=
  ⟨claim_C3_only_md_notes.1 [.mk "c.md" "notes/c.md" "file" []] _
      (by
        have h : pyEndsWith "c.md" ".md" = true := by decide
        simp [build_tree, allNodes, h])
      rfl,
   claim_C3_only_md_notes.2 "img.png" "notes/img.png" [] [] (by decide) (by decide)⟩

/-- C4: for every path whose fetched response is a JSON object lacking a
`content` field, renderNote (`fetch_note_content`) returns exactly the
sentinel string \"Could not fetch note content.\", reports nothing, and lets
no exception escape. -/
theorem claim_C4_missing_content_sentinel (env : Env) (cfg : Config) (p : String)
    (fields : List (String × Json))
    (hbody : (env.net (apiUrl cfg p)).body = some (.obj fields))
    (hnc : Json.pyContains (.obj fields) "content" = false) :
    fetch_note_content env cfg p = (.ok "Could not fetch note content.", []) := by
  simp [fetch_note_content, HttpResponse.json, hbody, hnc]

/-- C4 witness: the theorem applied to the concrete 404 environment, whose
JSON error body lacks a `content` field. -/
theorem claim_C4_witness :
    fetch_note_content env404 cfg0 "notes/missing.md"
      = (.ok "Could not fetch note content.", []) :=
  claim_C4_missing_content_sentinel env404 cfg0 "notes/missing.md"
    [("message", .str "Not Found")] rfl rfl

/-- C5 counterexample: the claim states that for every non-200 response each
fetch operation (its cited sources include `fetch_note_content`) reports a
recoverable error whose message includes the path and the status code.  At
this concrete input the status is 404, yet `fetch_note_content` reports no
message at all (the reported list is empty) and returns the sentinel string,
refuting the claim as stated. -/
theorem claim_C5_counterexample :
    fetch_note_content env404 cfg0 "data/anime.csv"
      = (.ok "Could not fetch note content.", []) := rfl

/-- C5 (amended): on a non-200 status, `fetch_dataframe` and `list_folder`
report exactly the message `Failed to fetch {path}: {status}` — which
contains the requested path and the status code — return the empty
dataframe / empty listing, and let no exception escape; `fetch_note_content`
however never inspects the status code: whenever the response body parses as
JSON without a `content` field it returns the sentinel string and reports
nothing. -/
theorem claim_C5_non200_reporting :
    (∀ (env : Env) (cfg : Config) (p : String),
      (env.net (apiUrl cfg p)).status ≠ 200 →
      fetch_dataframe env cfg p
        = (.ok .empty,
           ["Failed to fetch " ++ p ++ ": " ++ toString (env.net (apiUrl cfg p)).status])
      ∧ list_folder env cfg p
        = (.ok (.arr []),
           ["Failed to fetch " ++ p ++ ": " ++ toString (env.net (apiUrl cfg p)).status]))
    ∧ (∀ (env : Env) (cfg : Config) (p : String) (j : Json),
      (env.net (apiUrl cfg p)).body = some j →
      j.pyContains "content" = false →
      fetch_note_content env cfg p = (.ok "Could not fetch note content.", [])) := by
  constructor
  · intro env cfg p h
    constructor
    · simp [fetch_dataframe, h]
    · simp [list_folder, h]
  · intro env cfg p j hbody hnc
    simp [fetch_note_content, HttpResponse.json, hbody, hnc]

/-- C5 witness: the amended theorem applied to the concrete 404
environment. -/
theorem claim_C5_witness :
    (env404.net (apiUrl cfg0 "data/procrastination.csv")).status ≠ 200
    ∧ fetch_dataframe env404 cfg0 "data/procrastination.csv"
        = (.ok .empty, ["Failed to fetch data/procrastination.csv: 404"])
    ∧ list_folder env404 cfg0 "notes"
        = (.ok (.arr []), ["Failed to fetch notes: 404"])
    ∧ fetch_note_content env404 cfg0 "notes/x.md"
        = (.ok "Could not fetch note content.", []) := by
  have h1 : (env404.net (apiUrl cfg0 "data/procrastination.csv")).status ≠ 200 := by decide
  have h2 : (env404.net (apiUrl cfg0 "notes")).status ≠ 200 := by decide
  exact ⟨h1,
    (claim_C5_non200_reporting.1 env404 cfg0 "data/procrastination.csv" h1).1,
    (claim_C5_non200_reporting.1 env404 cfg0 "notes" h2).2,
    claim_C5_non200_reporting.2 env404 cfg0 "notes/x.md"
      (.obj [("message", .str "Not Found")]) rfl rfl⟩

/-- A name ending in `.md` cannot be `.obsidian`. -/
theorem md_not_obsidian {n : String} (h : pyEndsWith n ".md" = true) :
    ¬ (n == ".obsidian") = true := by
  intro hb
  have heq : n = ".obsidian" := by simpa using hb
  subst heq
  exact absurd h (by decide)

/-- Order characterisation: `build_tree` is the in-order `filterMap` of the
per-entry conversion `entryNode`. -/
theorem build_tree_filterMap (l : List RNode) :
    build_tree l = l.filterMap entryNode := by
  induction l with
  | nil => simp [build_tree]
  | cons x rest ih =>
    obtain ⟨name, path, ty, children⟩ := x
    by_cases h1 : (name == ".obsidian") = true
    · simp [build_tree, entryNode, h1, ih]
    · by_cases h2 : (ty == "dir") = true
      · simp [build_tree, entryNode, h1, h2, ih]
      · by_cases h3 : (ty == "file" && pyEndsWith name ".md") = true
        · simp [build_tree, entryNode, h1, h2, h3, ih]
        · simp [build_tree, entryNode, h1, h2, h3, ih]

/-- A root listing of exactly three `.md` file records yields exactly the
three note nodes, in listing order. -/
theorem build_tree_three_files (n1 p1 n2 p2 n3 p3 : String)
    (h1 : pyEndsWith n1 ".md" = true) (h2 : pyEndsWith n2 ".md" = true)
    (h3 : pyEndsWith n3 ".md" = true) :
    build_tree [.mk n1 p1 "file" [], .mk n2 p2 "file" [], .mk n3 p3 "file" []]
      = [.note p1 n1 p1, .note p2 n2 p2, .note p3 n3 p3] := by
  simp [build_tree, md_not_obsidian h1, md_not_obsidian h2, md_not_obsidian h3, h1, h2, h3]

/-- C6: buildTree equals, on every listing, the in-order `filterMap` of the
per-entry conversion `entryNode`: children appear exactly in the order the
listing returned them with only the skipped entries removed, never sorted;
in particular a root listing of zero directories and exactly three `.md`
files yields exactly the three note nodes in listing order. -/
theorem claim_C6_listing_order :
    (∀ l : List RNode, build_tree l = l.filterMap entryNode)
    ∧ (∀ n1 p1 n2 p2 n3 p3 : String,
        pyEndsWith n1 ".md" = true → pyEndsWith n2 ".md" = true →
        pyEndsWith n3 ".md" = true →
        build_tree [.mk n1 p1 "file" [], .mk n2 p2 "file" [], .mk n3 p3 "file" []]
          = [.note p1 n1 p1, .note p2 n2 p2, .note p3 n3 p3]) :=
  ⟨build_tree_filterMap, build_tree_three_files⟩

/-- C6 witness: the three-file part of the theorem applied to three concrete
`.md` listing records. -/
theorem claim_C6_witness :
    build_tree [RNode.mk "a.md" "notes/a.md" "file" [], RNode.mk "b.md" "notes/b.md" "file" [],
        RNode.mk "c.md" "notes/c.md" "file" []]
      = [.note "notes/a.md" "a.md" "notes/a.md", .note "notes/b.md" "b.md" "notes/b.md",
         .note "notes/c.md" "c.md" "notes/c.md"] :=
  claim_C6_listing_order.2 "a.md" "notes/a.md" "b.md" "notes/b.md" "c.md" "notes/c.md"
    (by decide) (by decide) (by decide)

/-- C7: a listing entry of type `dir` whose own listing is empty still
produces a folder node, with an empty children sequence (`build_tree []`
evaluates to `[]`); the node is not omitted from the result. -/
theorem claim_C7_empty_dir_folder (name path : String) (rest : List RNode)
    (h : name ≠ ".obsidian") :
    build_tree (.mk name path "dir" [] :: rest)
      = .folder path name [] :: build_tree rest := by
  simp [build_tree, h]

/-- C7 witness: the theorem applied to a concrete empty directory entry. -/
theorem claim_C7_witness :
    build_tree [RNode.mk "empty" "notes/empty" "dir" []]
      = .folder "notes/empty" "empty" [] :: build_tree [] :=
  claim_C7_empty_dir_folder "empty" "notes/empty" [] (by decide)

/-- The preorder ids of a built tree form a sublist of the preorder paths of
the remote listing records. -/
theorem allIds_build_tree_sublist (l : List RNode) :
    (allIds (build_tree l)).Sublist (allPaths l) := by
  induction l using build_tree.induct with
  | case1 => simp [build_tree, allIds, allPaths]
  | case2 name path ty children rest hname ih =>
      simp only [build_tree, if_pos hname, allPaths]
      exact (ih.trans (List.sublist_append_right _ _)).cons _
  | case3 name path ty children rest hname hty ih1 ih2 =>
      simp only [build_tree, if_neg hname, if_pos hty, allIds, allPaths]
      exact (ih1.append ih2).cons₂ _
  | case4 name path ty children rest hname hty hfile ih =>
      simp only [build_tree, if_neg hname, if_neg hty, if_pos hfile, allIds, allPaths]
      exact (ih.trans (List.sublist_append_right _ _)).cons₂ _
  | case5 name path ty children rest hname hty hfile ih =>
      simp only [build_tree, if_neg hname, if_neg hty, if_neg hfile, allPaths]
      exact (ih.trans (List.sublist_append_right _ _)).cons _

/-- The id of any node of a tree occurs in the preorder id list of that
tree. -/
theorem mem_allNodes_id (ns : List TreeNode) :
    ∀ n ∈ allNodes ns, n.id ∈ allIds ns := by
  induction ns using allNodes.induct with
  | case1 => simp [allNodes]
  | case2 i nm cs rest ih1 ih2 =>
      intro n hn
      simp only [allNodes, List.mem_cons, List.mem_append] at hn
      simp only [allIds, List.mem_cons, List.mem_append]
      rcases hn with h | h | h
      · subst h; exact Or.inl rfl
      · exact Or.inr (Or.inl (ih1 n h))
      · exact Or.inr (Or.inr (ih2 n h))
  | case3 i nm p rest ih =>
      intro n hn
      simp only [allNodes, List.mem_cons] at hn
      simp only [allIds, List.mem_cons]
      rcases hn with h | h
      · subst h; exact Or.inl rfl
      · exact Or.inr (ih n h)

/-- Every note node produced by `build_tree` carries a path field equal to
its id. -/
theorem build_tree_note_shape (l : List RNode) :
    ∀ n ∈ allNodes (build_tree l), n.isNote = true → ∃ i nm, n = .note i nm i := by
  induction l using build_tree.induct with
  | case1 => simp [build_tree, allNodes]
  | case2 name path ty children rest hname ih =>
      simpa [build_tree, hname] using ih
  | case3 name path ty children rest hname hty ih1 ih2 =>
      intro n hn
      simp only [build_tree, if_neg hname, if_pos hty, allNodes, List.mem_cons,
        List.mem_append] at hn
      rcases hn with h | h | h
      · subst h; intro hnote; cases hnote
      · exact ih1 n h
      · exact ih2 n h
  | case4 name path ty children rest hname hty hfile ih =>
      intro n hn
      simp only [build_tree, if_neg hname, if_neg hty, if_pos hfile, allNodes,
        List.mem_cons] at hn
      rcases hn with h | h
      · subst h; intro _; exact ⟨path, name, rfl⟩
      · exact ih n h
  | case5 name path ty children rest hname hty hfile ih =>
      simpa [build_tree, hname, hty, hfile] using ih

/-- C8: every node of a buildTree result is a folder or a note (enforced by
the `TreeNode` type: a folder has id, name and children, a note has id, name
and path); every note node carries a path equal to its id; the preorder
sequence of ids is a sublist of the preorder sequence of listing paths, so
every id equals a repository path of the backing listings; and when the
backing listings report pairwise distinct paths, the ids are pairwise
distinct across the whole tree. -/
theorem claim_C8_ids_and_shape (l : List RNode) :
    (∀ n ∈ allNodes (build_tree l), n.isNote = true → ∃ i nm, n = .note i nm i)
    ∧ (allIds (build_tree l)).Sublist (allPaths l)
    ∧ (∀ n ∈ allNodes (build_tree l), n.id ∈ allPaths l)
    ∧ ((allPaths l).Nodup → (allIds (build_tree l)).Nodup) :=
  ⟨build_tree_note_shape l, allIds_build_tree_sublist l,
   fun n hn => (allIds_build_tree_sublist l).subset (mem_allNodes_id _ n hn),
   fun h => h.sublist (allIds_build_tree_sublist l)⟩

/-- C8 witness: the theorem applied to a concrete two-level tree whose
listing paths are distinct, each hypothesis discharged by evaluation. -/
theorem claim_C8_witness :
    (∃ i nm, TreeNode.note "notes/c.md" "c.md" "notes/c.md" = TreeNode.note i nm i)
    ∧ (allIds (build_tree [RNode.mk "a" "notes/a" "dir" [RNode.mk "b.md" "notes/a/b.md" "file" []],
          RNode.mk "c.md" "notes/c.md" "file" []])).Sublist
        (allPaths [RNode.mk "a" "notes/a" "dir" [RNode.mk "b.md" "notes/a/b.md" "file" []],
          RNode.mk "c.md" "notes/c.md" "file" []])
    ∧ TreeNode.id (.note "notes/c.md" "c.md" "notes/c.md")
        ∈ allPaths [RNode.mk "a" "notes/a" "dir" [RNode.mk "b.md" "notes/a/b.md" "file" []],
          RNode.mk "c.md" "notes/c.md" "file" []]
    ∧ (allIds (build_tree [RNode.mk "a" "notes/a" "dir" [RNode.mk "b.md" "notes/a/b.md" "file" []],
          RNode.mk "c.md" "notes/c.md" "file" []])).Nodup := by
  have h1 : pyEndsWith "b.md" ".md" = true := by decide
  have h2 : pyEndsWith "c.md" ".md" = true := by decide
  have hmem : (TreeNode.note "notes/c.md" "c.md" "notes/c.md")
      ∈ allNodes (build_tree [RNode.mk "a" "notes/a" "dir" [RNode.mk "b.md" "notes/a/b.md" "file" []],
          RNode.mk "c.md" "notes/c.md" "file" []]) := by
    simp [build_tree, allNodes, h1, h2]
  have hnd : (allPaths [RNode.mk "a" "notes/a" "dir" [RNode.mk "b.md" "notes/a/b.md" "file" []],
      RNode.mk "c.md" "notes/c.md" "file" []]).Nodup := by
    have hp : allPaths [RNode.mk "a" "notes/a" "dir" [RNode.mk "b.md" "notes/a/b.md" "file" []],
        RNode.mk "c.md" "notes/c.md" "file" []]
        = ["notes/a", "notes/a/b.md", "notes/c.md"] := by simp [allPaths]
    rw [hp]
    decide
  exact ⟨(claim_C8_ids_and_shape _).1 _ hmem rfl,
    (claim_C8_ids_and_shape _).2.1,
    (claim_C8_ids_and_shape _).2.2.1 _ hmem,
    (claim_C8_ids_and_shape _).2.2.2 hnd⟩

/-- A second `cachedCall` with the same key returns the stored result,
leaves the memo table unchanged, and performs zero underlying calls. -/
theorem cachedCall_second_hit {α : Type} (f : String → α) (c : List (String × α)) (k : String) :
    cachedCall f (cachedCall f c k).2.1 k = ((cachedCall f c k).1, (cachedCall f c k).2.1, 0) := by
  unfold cachedCall lookupCache
  cases h : List.find? (fun p => p.1 == k) c with
  | some v => simp [h]
  | none => simp [h, List.find?_cons_of_pos]

/-- C9: under the `st.cache_data` model `cachedCall`, calling a cached
fetcher twice with the same path argument and no intervening cache clear
returns the identical stored result, leaves the memo table unchanged, and
performs zero further underlying invocations (hence no second network
request); stated for both cached fetchers `fetch_dataframe` and
`list_folder`. -/
theorem claim_C9_memoized_fetch (env : Env) (cfg : Config) (p : String) :
    (∀ c : List (String × (Except PyErr DataFrame × List String)),
      cachedCall (fetch_dataframe env cfg) ((cachedCall (fetch_dataframe env cfg) c p).2.1) p
        = ((cachedCall (fetch_dataframe env cfg) c p).1,
           (cachedCall (fetch_dataframe env cfg) c p).2.1, 0))
    ∧ (∀ c : List (String × (Except PyErr Json × List String)),
      cachedCall (list_folder env cfg) ((cachedCall (list_folder env cfg) c p).2.1) p
        = ((cachedCall (list_folder env cfg) c p).1,
           (cachedCall (list_folder env cfg) c p).2.1, 0)) :=
  ⟨fun c => cachedCall_second_hit _ c p, fun c => cachedCall_second_hit _ c p⟩

/-- C10: for every file path ending in neither `.csv` nor `.json`, even when
the HTTP fetch succeeds (status 200) and the base64/UTF-8 decode of the
content field succeeds, `fetch_dataframe` reports an unsupported-file-type
error and returns the empty dataframe rather than the decoded content. -/
theorem claim_C10_unsupported_file_type (env : Env) (cfg : Config) (p : String)
    (j : Json) (s d : String)
    (hcsv : pyEndsWith p ".csv" = false) (hjson : pyEndsWith p ".json" = false)
    (hstatus : (env.net (apiUrl cfg p)).status = 200)
    (hbody : (env.net (apiUrl cfg p)).body = some j)
    (hin : j.pyContains "content" = true)
    (hget : j.getItem "content" = .ok (.str s))
    (hdec : env.b64utf8 s = .ok d) :
    fetch_dataframe env cfg p = (.ok .empty, ["Unsupported file type: " ++ p]) := by
  simp [fetch_dataframe, HttpResponse.json, hstatus, hbody, hin, hget, hdec,
    decodeContentField, Bind.bind, Except.bind, hcsv, hjson]

/-- C10 witness: the theorem applied to a concrete successful `.md` file
response, each hypothesis discharged by evaluation. -/
theorem claim_C10_witness :
    fetch_dataframe envFile cfg0 "notes/a.md"
      = (.ok .empty, ["Unsupported file type: notes/a.md"]) :=
  claim_C10_unsupported_file_type envFile cfg0 "notes/a.md"
    (.obj [("name", .str "a.md"), ("path", .str "notes/a.md"),
           ("type", .str "file"), ("content", .str "aGVsbG8=")])
    "aGVsbG8=" "hello" (by decide) (by decide) rfl rfl rfl rfl rfl
